import Mathlib

/-!
# Verification of `ComposableGraphQueryEngine`
(`llama_index/query_engine/graph_query_engine.py`)

A shallow embedding of the composable-graph query coordinator.  The
coordinator's own logic (`_query`, `_aquery`, `_query_index`,
`_fetch_recursive_nodes`) is translated directly from the source file.
The collaborator types (`QueryBundle`, nodes, `Response`, query handlers,
`ComposableGraph`) live outside this repository slice; they are modelled
from the spec's data-model section, as opaque capabilities.

Python's unbounded recursion is embedded with an explicit fuel parameter:
exhausting the fuel yields the distinguished `QueryError.outOfFuel` value,
so "the recursion never bottoms out" is expressed as "for every fuel the
run ends in `outOfFuel`".  A `KeyError` raised by the graph lookup is the
`QueryError.keyError` value; `Except` propagation models Python exception
propagation (short-circuiting, no partial result).  Scores are carried but
never inspected by this module, so their numeric type is irrelevant; they
are modelled as `Option Int`.
-/

namespace GraphQE

/-- Modelled from the spec: a query bundle carrying the query text
(`QueryBundle`, an external collaborator type). -/
structure QueryBundle where
  query_str : String
  deriving Repr, DecidableEq

/-- Modelled from the spec: a retrieved content node, polymorphic over
plain content (`TextNode`) and placeholder referencing another index
identifier (`IndexNode`, which also carries text). -/
inductive BaseNode where
  | textNode (text : String)
  | indexNode (text : String) (index_id : String)
  deriving Repr, DecidableEq

/-- `true` exactly on placeholder (index) nodes. -/
def BaseNode.isIndexNode : BaseNode → Bool
  | .textNode _ => false
  | .indexNode _ _ => true

/-- Modelled from the spec: a scored fragment (`NodeWithScore`). The score
is carried, never inspected, by this module. -/
structure NodeWithScore where
  node : BaseNode
  score : Option Int
  deriving Repr, DecidableEq

/-- Modelled from the spec: a synthesized response — answer text plus the
ordered source fragments that contributed to it.  `str(response)` in the
source yields the answer text. -/
structure Response where
  response : String
  source_nodes : List NodeWithScore
  deriving Repr, DecidableEq

/-- Modelled from the spec: a query handler capability exposing
`retrieve` and `synthesize`.  The third argument of `synthesize` models
Python's optional `additional_source_nodes` parameter: `none` when the
call omits it, `some l` when the list `l` is passed. -/
structure BaseQueryEngine where
  retrieve : QueryBundle → List NodeWithScore
  synthesize : QueryBundle → List NodeWithScore → Option (List NodeWithScore) → Response

/-- Modelled from the spec: a sub-index — an opaque queryable capability,
with a kind discriminator (vector-similarity or generic) and the ability
to produce a query handler.  `as_query_engine (some k)` models the call
`as_query_engine(similarity_top_k=k)`; `as_query_engine none` models the
no-argument call. -/
structure SubIndex where
  is_vector_store : Bool
  as_query_engine : Option Nat → BaseQueryEngine

/-- Modelled from the spec: the graph — a mapping from index identifiers
to sub-indices with one designated root identifier. -/
structure ComposableGraph where
  root_id : String
  all_indices : List (String × SubIndex)

/-- Modelled from the spec: `graph.get_index(id)`; `none` models the
`KeyError` raised on an unknown identifier. -/
def ComposableGraph.get_index (g : ComposableGraph) (index_id : String) : Option SubIndex :=
  (g.all_indices.find? (fun p => p.1 == index_id)).map Prod.snd

/-- The coordinator's construction-time state
(`ComposableGraphQueryEngine.__init__`): the graph, the custom handler
registry, the recursion flag and the configured similarity top-k. -/
structure ComposableGraphQueryEngine where
  graph : ComposableGraph
  custom_query_engines : List (String × BaseQueryEngine)
  recursive : Bool
  similarity_top_k : Nat

/-- Registry lookup: `index_id in self._custom_query_engines` /
`self._custom_query_engines[index_id]`. -/
def lookupEngine (m : List (String × BaseQueryEngine)) (index_id : String) :
    Option BaseQueryEngine :=
  (m.find? (fun p => p.1 == index_id)).map Prod.snd

/-- Errors a run can end in: `keyError id` models the `KeyError` of
`graph.get_index`; `outOfFuel` is the fuel-exhaustion artifact standing
for a run that has not terminated within the given depth budget. -/
inductive QueryError where
  | keyError (index_id : String)
  | outOfFuel
  deriving Repr, DecidableEq

/-- `index_id = index_id or self._graph.root_id` (line 58): Python `or`
takes the right operand whenever the left is falsy, i.e. on `None` and on
the empty string. -/
def orRootId (index_id : Option String) (root : String) : String :=
  match index_id with
  | none => root
  | some s => if s == "" then root else s

/-- The handler-selection block of `_query_index` (lines 63–72): the
custom registry entry if present, else the sub-index's default handler —
built with the configured top-k when the sub-index is a vector store,
with no argument otherwise.  An unknown identifier surfaces the graph
lookup's `KeyError`. -/
def getQueryEngineFor (e : ComposableGraphQueryEngine) (index_id : String) :
    Except QueryError BaseQueryEngine :=
  match lookupEngine e.custom_query_engines index_id with
  | some qe => .ok qe
  | none =>
    match e.graph.get_index index_id with
    | some idx =>
      if idx.is_vector_store then
        .ok (idx.as_query_engine (some e.similarity_top_k))
      else
        .ok (idx.as_query_engine none)
    | none => .error (.keyError index_id)

/-- The body of `_fetch_recursive_nodes`, abstracted over the recursive
call (`recurse iid` stands for `self._query_index(query_bundle, iid,
level + 1)`): a placeholder node is replaced by a plain `TextNode`
carrying the sub-response's text and the original score, paired with the
sub-response's source nodes; any other node is returned unchanged with an
empty list. -/
def fetch_one (recurse : String → Except QueryError Response)
    (node_with_score : NodeWithScore) :
    Except QueryError (NodeWithScore × List NodeWithScore) :=
  match node_with_score.node with
  | .indexNode _ iid =>
    match recurse iid with
    | .error err => .error err
    | .ok response =>
      .ok (⟨.textNode response.response, node_with_score.score⟩, response.source_nodes)
  | .textNode _ => .ok (node_with_score, [])

/-- The `for node_with_score in nodes` loop of `_query_index` (lines
85–92): expand each node in order, appending replaced nodes and
concatenating extra sources; an exception in the middle aborts the
whole loop. -/
def fetch_loop (fetch : NodeWithScore → Except QueryError (NodeWithScore × List NodeWithScore)) :
    List NodeWithScore → Except QueryError (List NodeWithScore × List NodeWithScore)
  | [] => .ok ([], [])
  | n :: ns =>
    match fetch n with
    | .error err => .error err
    | .ok (n', srcs) =>
      match fetch_loop fetch ns with
      | .error err => .error err
      | .ok (rest, restSrcs) => .ok (n' :: rest, srcs ++ restSrcs)

/-- `_query_index(self, query_bundle, index_id=None, level=0)`, with an
explicit fuel budget added for the embedding (structural on `fuel`, so
runs compute by `rfl`).  The callback-manager events are pure
observability (no effect on control flow or values) and are omitted. -/
def query_index (e : ComposableGraphQueryEngine) :
    Nat → QueryBundle → Option String → Nat → Except QueryError Response
  | 0, _, _, _ => .error .outOfFuel
  | f + 1, qb, index_id, level =>
    let iid := orRootId index_id e.graph.root_id
    match getQueryEngineFor e iid with
    | .error err => .error err
    | .ok query_engine =>
      let nodes := query_engine.retrieve qb
      if e.recursive then
        match fetch_loop
            (fetch_one (fun i => query_index e f qb (some i) (level + 1))) nodes with
        | .error err => .error err
        | .ok (nodes_for_synthesis, additional_source_nodes) =>
          .ok (query_engine.synthesize qb nodes_for_synthesis (some additional_source_nodes))
      else
        .ok (query_engine.synthesize qb nodes none)

/-- `_fetch_recursive_nodes(self, node_with_score, query_bundle, level)`:
`fetch_one` with the recursive call instantiated to `_query_index` at
`level + 1` and the given fuel budget. -/
def fetch_recursive_nodes (e : ComposableGraphQueryEngine) (fuel : Nat)
    (node_with_score : NodeWithScore) (qb : QueryBundle) (level : Nat) :
    Except QueryError (NodeWithScore × List NodeWithScore) :=
  fetch_one (fun i => query_index e fuel qb (some i) (level + 1)) node_with_score

/-- The loop of `_query_index` with the fetch instantiated to
`_fetch_recursive_nodes`. -/
def fetch_all (e : ComposableGraphQueryEngine) (fuel : Nat) (qb : QueryBundle)
    (level : Nat) (nodes : List NodeWithScore) :
    Except QueryError (List NodeWithScore × List NodeWithScore) :=
  fetch_loop (fun n => fetch_recursive_nodes e fuel n qb level) nodes

/-- `_query(self, query_bundle)`: resolve against the root at level 0. -/
def query (e : ComposableGraphQueryEngine) (fuel : Nat) (qb : QueryBundle) :
    Except QueryError Response :=
  query_index e fuel qb none 0

/-- `_aquery(self, query_bundle)`: the asynchronous entry point; its body
is the same synchronous call (nothing is awaited). -/
def aquery (e : ComposableGraphQueryEngine) (fuel : Nat) (qb : QueryBundle) :
    Except QueryError Response :=
  query_index e fuel qb none 0

/-- Spec-side combinator for the refinement statement of the expansion
loop: apply `f` to each element in order, propagating the first error. -/
def mapExcept {α β ε : Type} (f : α → Except ε β) : List α → Except ε (List β)
  | [] => .ok []
  | a :: as =>
    match f a with
    | .error err => .error err
    | .ok b =>
      match mapExcept f as with
      | .error err => .error err
      | .ok bs => .ok (b :: bs)

/-! ## State-threaded translation (for the frame property)

Python methods receive `self` and could reassign its attributes.  To
state that no query mutates the coordinator, the methods are also
translated in state-threading style: each returns the coordinator object
along with its result, every attribute read uses the current state, and
the state returned by an inner call is the one subsequent steps and the
caller see.  `coordinator_state_frame` proves this translation returns
the state it was given and computes the same result as the pure
translation — the source assigns to `self` only in `__init__`. -/

/-- State-threaded `fetch_one`. -/
def fetch_one_st
    (recurse : String → ComposableGraphQueryEngine →
      Except QueryError Response × ComposableGraphQueryEngine)
    (node_with_score : NodeWithScore) (st : ComposableGraphQueryEngine) :
    Except QueryError (NodeWithScore × List NodeWithScore) × ComposableGraphQueryEngine :=
  match node_with_score.node with
  | .indexNode _ iid =>
    match recurse iid st with
    | (.error err, st₁) => (.error err, st₁)
    | (.ok response, st₁) =>
      (.ok (⟨.textNode response.response, node_with_score.score⟩,
        response.source_nodes), st₁)
  | .textNode _ => (.ok (node_with_score, []), st)

/-- State-threaded expansion loop. -/
def fetch_loop_st
    (fetch : NodeWithScore → ComposableGraphQueryEngine →
      Except QueryError (NodeWithScore × List NodeWithScore) × ComposableGraphQueryEngine) :
    List NodeWithScore → ComposableGraphQueryEngine →
      Except QueryError (List NodeWithScore × List NodeWithScore) × ComposableGraphQueryEngine
  | [], st => (.ok ([], []), st)
  | n :: ns, st =>
    match fetch n st with
    | (.error err, st₁) => (.error err, st₁)
    | (.ok (n', srcs), st₁) =>
      match fetch_loop_st fetch ns st₁ with
      | (.error err, st₂) => (.error err, st₂)
      | (.ok (rest, restSrcs), st₂) => (.ok (n' :: rest, srcs ++ restSrcs), st₂)

/-- State-threaded `_query_index`. -/
def query_index_st :
    Nat → QueryBundle → Option String → Nat → ComposableGraphQueryEngine →
      Except QueryError Response × ComposableGraphQueryEngine
  | 0, _, _, _, st => (.error .outOfFuel, st)
  | f + 1, qb, index_id, level, st =>
    let iid := orRootId index_id st.graph.root_id
    match getQueryEngineFor st iid with
    | .error err => (.error err, st)
    | .ok query_engine =>
      let nodes := query_engine.retrieve qb
      if st.recursive then
        match fetch_loop_st
            (fetch_one_st (fun i stI => query_index_st f qb (some i) (level + 1) stI))
            nodes st with
        | (.error err, st₁) => (.error err, st₁)
        | (.ok (nodes_for_synthesis, additional_source_nodes), st₁) =>
          (.ok (query_engine.synthesize qb nodes_for_synthesis
            (some additional_source_nodes)), st₁)
      else
        (.ok (query_engine.synthesize qb nodes none), st)

/-- State-threaded `_query`. -/
def query_st (st : ComposableGraphQueryEngine) (fuel : Nat) (qb : QueryBundle) :
    Except QueryError Response × ComposableGraphQueryEngine :=
  query_index_st fuel qb none 0 st

/-! ## Concrete fixtures

The spec's §8 scenario — root index `R` (vector) whose retrieval returns
one placeholder referencing `B`; `B` (generic) retrieves one plain
fragment — plus variants used to instantiate the theorems below. -/

def wQB : QueryBundle := ⟨"q"⟩

/-- Child handler for `B`: one plain fragment, fixed synthesis. -/
def wEngB : BaseQueryEngine :=
  ⟨fun _ => [⟨.textNode "hello", some 5⟩],
   fun _ _ _ => ⟨"hello world", [⟨.textNode "hello", some 5⟩]⟩⟩

/-- Root handler for `R`: one placeholder referencing `B`; synthesis
echoes the fragments followed by the extra sources. -/
def wEngR : BaseQueryEngine :=
  ⟨fun _ => [⟨.indexNode "" "B", some 9⟩],
   fun _ ns extra => ⟨"root", ns ++ extra.getD []⟩⟩

def wGraph : ComposableGraph :=
  ⟨"R", [("R", ⟨true, fun _ => wEngR⟩), ("B", ⟨false, fun _ => wEngB⟩)]⟩

/-- The §8 coordinator: recursion on, no custom handlers. -/
def wE : ComposableGraphQueryEngine := ⟨wGraph, [], true, 2⟩

/-- The same graph with recursion disabled. -/
def w4E : ComposableGraphQueryEngine := ⟨wGraph, [], false, 2⟩

/-- A handler used as a custom registry entry. -/
def w3Custom : BaseQueryEngine := ⟨fun _ => [], fun _ _ _ => ⟨"custom", []⟩⟩

/-- A vector-store sub-index. -/
def w3IdxV : SubIndex := ⟨true, fun _ => ⟨fun _ => [], fun _ _ _ => ⟨"vec", []⟩⟩⟩

/-- A generic sub-index. -/
def w3IdxG : SubIndex := ⟨false, fun _ => ⟨fun _ => [], fun _ _ _ => ⟨"gen", []⟩⟩⟩

/-- Coordinator for handler selection: `V` is a vector index with a
custom handler registered, `W` a vector index without one, `G` generic. -/
def w3E : ComposableGraphQueryEngine :=
  ⟨⟨"V", [("V", w3IdxV), ("W", w3IdxV), ("G", w3IdxG)]⟩, [("V", w3Custom)], true, 4⟩

/-- A custom handler registered for `X`, an identifier absent from the
graph. -/
def c5QE : BaseQueryEngine := ⟨fun _ => [], fun _ _ _ => ⟨"sub", []⟩⟩

/-- Root handler retrieving a placeholder that references `X`. -/
def c5Root : BaseQueryEngine :=
  ⟨fun _ => [⟨.indexNode "" "X", some 1⟩], fun _ ns _ => ⟨"top", ns⟩⟩

/-- Coordinator whose registry knows `X` although the graph does not. -/
def c5E : ComposableGraphQueryEngine :=
  ⟨⟨"R", [("R", ⟨false, fun _ => c5Root⟩)]⟩, [("X", c5QE)], true, 2⟩

/-- A single-index coordinator with no placeholder among the retrieved
fragments (two plain fragments). -/
def w7Eng : BaseQueryEngine :=
  ⟨fun _ => [⟨.textNode "a", some 3⟩, ⟨.textNode "b", none⟩],
   fun _ ns extra => ⟨"seven", ns ++ extra.getD []⟩⟩

def w7E : ComposableGraphQueryEngine :=
  ⟨⟨"S", [("S", ⟨false, fun _ => w7Eng⟩)]⟩, [], true, 2⟩

/-- The expansion pairs produced on the §8 scenario: the placeholder is
replaced by the child's answer at the original score, with the child's
source fragment as extra source. -/
def wPairs : List (NodeWithScore × List NodeWithScore) :=
  [(⟨.textNode "hello world", some 9⟩, [⟨.textNode "hello", some 5⟩])]

def cyc_qb : QueryBundle := ⟨"loop"⟩

/-- A handler whose retrieval returns a placeholder referencing `A`
itself. -/
def cyc_engine : BaseQueryEngine :=
  ⟨fun _ => [⟨.indexNode "self" "A", some 1⟩], fun _ ns _ => ⟨"never", ns⟩⟩

/-- A cyclic one-index graph: `A`'s subtree reaches `A` again. -/
def cyc_coordinator : ComposableGraphQueryEngine :=
  ⟨⟨"A", [("A", ⟨false, fun _ => cyc_engine⟩)]⟩, [], true, 2⟩

/-! ## Helper lemmas -/

/-- One-step unfolding of `query_index` at positive fuel, phrased through
`fetch_all`. -/
theorem query_index_succ (e : ComposableGraphQueryEngine) (fuel : Nat) (qb : QueryBundle)
    (index_id : Option String) (level : Nat) :
    query_index e (fuel + 1) qb index_id level =
      match getQueryEngineFor e (orRootId index_id e.graph.root_id) with
      | .error err => .error err
      | .ok query_engine =>
        if e.recursive then
          match fetch_all e fuel qb level (query_engine.retrieve qb) with
          | .error err => .error err
          | .ok (nodes_for_synthesis, additional_source_nodes) =>
            .ok (query_engine.synthesize qb nodes_for_synthesis (some additional_source_nodes))
        else
          .ok (query_engine.synthesize qb (query_engine.retrieve qb) none) :=
  rfl

/-- A non-placeholder node is returned unchanged by `fetch_one`. -/
theorem fetch_one_text (recurse : String → Except QueryError Response)
    (n : NodeWithScore) (h : n.node.isIndexNode = false) :
    fetch_one recurse n = .ok (n, []) := by
  cases hn : n.node with
  | textNode t => simp [fetch_one, hn]
  | indexNode t i => simp [BaseNode.isIndexNode, hn] at h

/-- On a list of non-placeholder nodes the expansion loop is the
identity, with no extra sources. -/
theorem fetch_loop_text (recurse : String → Except QueryError Response)
    (ns : List NodeWithScore) (h : ∀ n ∈ ns, n.node.isIndexNode = false) :
    fetch_loop (fetch_one recurse) ns = .ok (ns, []) := by
  induction ns with
  | nil => rfl
  | cons n ns ih =>
    have h1 : fetch_one recurse n = .ok (n, []) := fetch_one_text recurse n (h n (by simp))
    have h2 : fetch_loop (fetch_one recurse) ns = .ok (ns, []) :=
      ih (fun m hm => h m (by simp [hm]))
    simp [fetch_loop, h1, h2]

/-- The expansion loop is `mapExcept` of the per-node expansion followed
by splitting the pairs: replaced nodes in order, extra sources flattened
in order. -/
theorem fetch_loop_eq_mapExcept
    (fetch : NodeWithScore → Except QueryError (NodeWithScore × List NodeWithScore))
    (ns : List NodeWithScore) :
    fetch_loop fetch ns =
      match mapExcept fetch ns with
      | .error err => .error err
      | .ok ps => .ok (ps.map Prod.fst, (ps.map Prod.snd).flatten) := by
  induction ns with
  | nil => rfl
  | cons n ns ih =>
    simp only [fetch_loop, mapExcept, ih]
    cases fetch n with
    | error err => rfl
    | ok p =>
      cases hm : mapExcept fetch ns with
      | error err => rfl
      | ok ps => rfl

/-! ## Claim theorems -/

/-- **C1**: on a placeholder fragment referencing `I`,
`_fetch_recursive_nodes` resolves the query against `I` at `level + 1`
and, when that sub-query yields a response `r`, returns a plain-content
fragment whose text is `r`'s answer text and whose score is the original
fragment's score, paired with `r`'s source fragments; on a
non-placeholder fragment it returns the fragment unchanged paired with
the empty list. -/
theorem fetch_recursive_nodes_correct (e : ComposableGraphQueryEngine) (fuel : Nat)
    (qb : QueryBundle) (level : Nat) :
    (∀ (txt iid : String) (s : Option Int) (r : Response),
        query_index e fuel qb (some iid) (level + 1) = .ok r →
        fetch_recursive_nodes e fuel ⟨.indexNode txt iid, s⟩ qb level =
          .ok (⟨.textNode r.response, s⟩, r.source_nodes)) ∧
    (∀ nws : NodeWithScore, nws.node.isIndexNode = false →
        fetch_recursive_nodes e fuel nws qb level = .ok (nws, [])) := by
  constructor
  · intro txt iid s r h
    simp [fetch_recursive_nodes, fetch_one, h]
  · intro nws h
    exact fetch_one_text _ nws h

/-- Witness for **C1** on the §8 scenario: the sub-query against `B`
succeeds, and the placeholder with score 9 is replaced by the plain
fragment `"hello world"` with score 9 plus `B`'s source fragment. -/
theorem fetch_recursive_nodes_correct_witness :
    query_index wE 1 wQB (some "B") 1 =
      .ok ⟨"hello world", [⟨.textNode "hello", some 5⟩]⟩ ∧
    fetch_recursive_nodes wE 1 ⟨.indexNode "" "B", some 9⟩ wQB 0 =
      .ok (⟨.textNode "hello world", some 9⟩, [⟨.textNode "hello", some 5⟩]) ∧
    fetch_recursive_nodes wE 1 ⟨.textNode "plain", some 7⟩ wQB 0 =
      .ok (⟨.textNode "plain", some 7⟩, []) :=
  ⟨rfl,
   (fetch_recursive_nodes_correct wE 1 wQB 0).1 "" "B" (some 9)
     ⟨"hello world", [⟨.textNode "hello", some 5⟩]⟩ rfl,
   (fetch_recursive_nodes_correct wE 1 wQB 0).2 ⟨.textNode "plain", some 7⟩ rfl⟩

/-- **C3**: handler selection prefers the custom registry entry whenever
one is registered for the identifier — whatever the configured top-k is —
and otherwise builds the sub-index's default handler, with the configured
`similarity_top_k` when the sub-index is a vector store and with no
argument otherwise. -/
theorem handler_selection_correct (e : ComposableGraphQueryEngine) (index_id : String) :
    (∀ qe, lookupEngine e.custom_query_engines index_id = some qe →
      ∀ k : Nat, getQueryEngineFor { e with similarity_top_k := k } index_id = .ok qe) ∧
    (∀ idx, lookupEngine e.custom_query_engines index_id = none →
      e.graph.get_index index_id = some idx → idx.is_vector_store = true →
      getQueryEngineFor e index_id = .ok (idx.as_query_engine (some e.similarity_top_k))) ∧
    (∀ idx, lookupEngine e.custom_query_engines index_id = none →
      e.graph.get_index index_id = some idx → idx.is_vector_store = false →
      getQueryEngineFor e index_id = .ok (idx.as_query_engine none)) := by
  refine ⟨fun qe hc k => ?_, fun idx hc hg hv => ?_, fun idx hc hg hv => ?_⟩
  · simp [getQueryEngineFor, hc]
  · simp [getQueryEngineFor, hc, hg, hv]
  · simp [getQueryEngineFor, hc, hg, hv]

/-- Witness for **C3**: the custom entry for the vector index `V` wins at
any top-k; the uncustomized vector index `W` gets a handler built with
the configured top-k; the generic index `G` gets the plain default
handler. -/
theorem handler_selection_correct_witness :
    getQueryEngineFor { w3E with similarity_top_k := 7 } "V" = .ok w3Custom ∧
    getQueryEngineFor w3E "W" = .ok (w3IdxV.as_query_engine (some w3E.similarity_top_k)) ∧
    getQueryEngineFor w3E "G" = .ok (w3IdxG.as_query_engine none) :=
  ⟨(handler_selection_correct w3E "V").1 w3Custom rfl 7,
   (handler_selection_correct w3E "W").2.1 w3IdxV rfl rfl rfl,
   (handler_selection_correct w3E "G").2.2 w3IdxG rfl rfl rfl⟩

/-- **C4**: with `recursive = false`, no expansion happens — synthesis
receives the raw retrieved fragment sequence and no additional-sources
argument, whatever the kinds of the retrieved fragments. -/
theorem non_recursive_correct (e : ComposableGraphQueryEngine) (fuel : Nat)
    (qb : QueryBundle) (index_id : Option String) (level : Nat) (qe : BaseQueryEngine)
    (hrec : e.recursive = false)
    (hsel : getQueryEngineFor e (orRootId index_id e.graph.root_id) = .ok qe) :
    query_index e (fuel + 1) qb index_id level =
      .ok (qe.synthesize qb (qe.retrieve qb) none) := by
  rw [query_index_succ, hsel, hrec]
  simp

/-- Witness for **C4**: on the §8 graph with recursion disabled, the
placeholder fragment reaches synthesis unexpanded and no additional
sources are passed. -/
theorem non_recursive_correct_witness :
    w4E.recursive = false ∧
    query_index w4E 1 wQB none 0 =
      .ok (wEngR.synthesize wQB (wEngR.retrieve wQB) none) :=
  ⟨rfl, non_recursive_correct w4E 0 wQB none 0 wEngR rfl rfl⟩

/-- **C2**: with recursion enabled, `_query_index` applies the expansion
to each retrieved fragment in order (`mapExcept`), keeps the replaced
fragments in order, flattens the extra source lists in fragment order,
and returns exactly the handler's `synthesize` result on them. -/
theorem recursive_query_correct (e : ComposableGraphQueryEngine) (fuel : Nat)
    (qb : QueryBundle) (index_id : Option String) (level : Nat)
    (qe : BaseQueryEngine) (pairs : List (NodeWithScore × List NodeWithScore))
    (hrec : e.recursive = true)
    (hsel : getQueryEngineFor e (orRootId index_id e.graph.root_id) = .ok qe)
    (hmap : mapExcept (fun n => fetch_recursive_nodes e fuel n qb level)
        (qe.retrieve qb) = .ok pairs) :
    query_index e (fuel + 1) qb index_id level =
      .ok (qe.synthesize qb (pairs.map Prod.fst)
        (some ((pairs.map Prod.snd).flatten))) := by
  have hfa : fetch_all e fuel qb level (qe.retrieve qb) =
      .ok (pairs.map Prod.fst, (pairs.map Prod.snd).flatten) := by
    show fetch_loop _ _ = _
    rw [fetch_loop_eq_mapExcept, hmap]
  rw [query_index_succ, hsel]
  simp [hrec, hfa]

/-- Witness for **C2** on the §8 scenario: the coordinator's answer is
the root handler's synthesis of the replaced fragment and the flattened
extra sources. -/
theorem recursive_query_correct_witness :
    query_index wE 2 wQB none 0 =
      .ok (wEngR.synthesize wQB (wPairs.map Prod.fst)
        (some ((wPairs.map Prod.snd).flatten))) :=
  recursive_query_correct wE 1 wQB none 0 wEngR wPairs rfl rfl rfl

/-- **C5 counterexample**: the identifier `X` is absent from the graph,
yet resolving it — directly or through a placeholder — succeeds, because
a custom handler is registered for `X` and the registry is consulted
before the graph. -/
theorem missing_index_counterexample :
    c5E.graph.get_index "X" = none ∧
    query_index c5E 1 wQB (some "X") 0 = .ok ⟨"sub", []⟩ ∧
    query c5E 2 wQB = .ok ⟨"top", [⟨.textNode "sub", some 1⟩]⟩ :=
  ⟨rfl, rfl, rfl⟩

/-- **C5 amended**: an identifier that is neither in the custom registry
nor in the graph makes resolution fail with the lookup's key error — both
on a direct request and when reached through a placeholder fragment — and
no response is constructed. -/
theorem missing_index_fails (e : ComposableGraphQueryEngine) (fuel : Nat)
    (qb : QueryBundle) (level : Nat) (index_id : String)
    (hc : lookupEngine e.custom_query_engines index_id = none)
    (hg : e.graph.get_index index_id = none)
    (hne : index_id ≠ "") :
    query_index e (fuel + 1) qb (some index_id) level = .error (.keyError index_id) ∧
    ∀ (txt : String) (s : Option Int),
      fetch_recursive_nodes e (fuel + 1) ⟨.indexNode txt index_id, s⟩ qb level =
        .error (.keyError index_id) := by
  have hor : orRootId (some index_id) e.graph.root_id = index_id := by
    simp [orRootId, hne]
  have hsel : getQueryEngineFor e index_id = .error (.keyError index_id) := by
    simp [getQueryEngineFor, hc, hg]
  have h1 : ∀ lvl : Nat,
      query_index e (fuel + 1) qb (some index_id) lvl = .error (.keyError index_id) := by
    intro lvl
    rw [query_index_succ, hor, hsel]
  refine ⟨h1 level, fun txt s => ?_⟩
  simp [fetch_recursive_nodes, fetch_one, h1 (level + 1)]

/-- Witness for **C5 amended**: `Z` is registered nowhere, so both the
direct request and the placeholder expansion fail with its key error. -/
theorem missing_index_fails_witness :
    query_index wE 1 wQB (some "Z") 0 = .error (.keyError "Z") ∧
    fetch_recursive_nodes wE 1 ⟨.indexNode "t" "Z", none⟩ wQB 0 =
      .error (.keyError "Z") :=
  ⟨(missing_index_fails wE 0 wQB 0 "Z" rfl rfl (by decide)).1,
   (missing_index_fails wE 0 wQB 0 "Z" rfl rfl (by decide)).2 "t" none⟩

/-- **C7**: on a single-index graph with recursion enabled, when no
retrieved fragment is a placeholder, the response is exactly
`synthesize(query, fragments, [])` on the raw retrieved sequence. -/
theorem single_index_no_placeholder (e : ComposableGraphQueryEngine) (fuel : Nat)
    (qb : QueryBundle) (level : Nat) (qe : BaseQueryEngine)
    (_hone : e.graph.all_indices.length = 1)
    (hrec : e.recursive = true)
    (hsel : getQueryEngineFor e e.graph.root_id = .ok qe)
    (htext : ∀ n ∈ qe.retrieve qb, n.node.isIndexNode = false) :
    query_index e (fuel + 1) qb none level =
      .ok (qe.synthesize qb (qe.retrieve qb) (some [])) := by
  have hfa : fetch_all e fuel qb level (qe.retrieve qb) = .ok (qe.retrieve qb, []) :=
    fetch_loop_text (fun i => query_index e fuel qb (some i) (level + 1))
      (qe.retrieve qb) htext
  rw [query_index_succ]
  simp only [show orRootId none e.graph.root_id = e.graph.root_id from rfl]
  rw [hsel]
  simp [hrec, hfa]

/-- Witness for **C7**: a one-index graph whose handler retrieves two
plain fragments; the answer is the synthesis of exactly those fragments
with an empty additional-sources list. -/
theorem single_index_no_placeholder_witness :
    w7E.graph.all_indices.length = 1 ∧
    query_index w7E 1 wQB none 0 =
      .ok (w7Eng.synthesize wQB (w7Eng.retrieve wQB) (some [])) :=
  ⟨rfl, single_index_no_placeholder w7E 0 wQB 0 w7Eng rfl rfl rfl (by decide)⟩

/-- **C8**: the blocking and asynchronous entry points both delegate to
`_query_index` at the root identifier and level 0 and return identical
responses. -/
theorem aquery_eq_query (e : ComposableGraphQueryEngine) (fuel : Nat) (qb : QueryBundle) :
    aquery e fuel qb = query e fuel qb ∧
    query e fuel qb = query_index e fuel qb none 0 :=
  ⟨rfl, rfl⟩

/-- The `level` argument never influences the result: it is passed on,
incremented, but never inspected. -/
theorem query_index_level_irrelevant (e : ComposableGraphQueryEngine) :
    ∀ (fuel : Nat) (qb : QueryBundle) (index_id : Option String) (l1 l2 : Nat),
      query_index e fuel qb index_id l1 = query_index e fuel qb index_id l2 := by
  intro fuel
  induction fuel with
  | zero => intro qb index_id l1 l2; rfl
  | succ f ih =>
    intro qb index_id l1 l2
    have hf : (fun i => query_index e f qb (some i) (l1 + 1)) =
        (fun i => query_index e f qb (some i) (l2 + 1)) :=
      funext fun i => ih qb (some i) (l1 + 1) (l2 + 1)
    simp only [query_index]
    rw [hf]

/-- On the cyclic graph `A → A`, resolution consumes the entire fuel
budget, whatever it is: the recursion never bottoms out. -/
theorem cyc_diverges_at (fuel : Nat) : ∀ level : Nat,
    query_index cyc_coordinator fuel cyc_qb (some "A") level = .error .outOfFuel := by
  induction fuel with
  | zero => intro level; rfl
  | succ f ih =>
    intro level
    have hfetch : fetch_recursive_nodes cyc_coordinator f
        ⟨.indexNode "self" "A", some 1⟩ cyc_qb level = .error .outOfFuel := by
      simp [fetch_recursive_nodes, fetch_one, ih (level + 1)]
    have hfa : fetch_all cyc_coordinator f cyc_qb level
        (cyc_engine.retrieve cyc_qb) = .error .outOfFuel := by
      show fetch_loop _ _ = _
      rw [show cyc_engine.retrieve cyc_qb = [⟨.indexNode "self" "A", some 1⟩] from rfl]
      simp [fetch_loop, hfetch]
    have hsel : getQueryEngineFor cyc_coordinator
        (orRootId (some "A") cyc_coordinator.graph.root_id) = .ok cyc_engine := rfl
    rw [query_index_succ, hsel]
    simp only [show cyc_coordinator.recursive = true from rfl, if_true, hfa]

/-- **C6**: no depth limit bounds the recursion — the `level` argument is
incremented on recursive calls but never used to stop them, and on a
cyclic graph (`A` referencing `A`) resolution exhausts every fuel budget
instead of terminating. -/
theorem no_depth_limit :
    (∀ (e : ComposableGraphQueryEngine) (fuel : Nat) (qb : QueryBundle)
        (index_id : Option String) (l1 l2 : Nat),
        query_index e fuel qb index_id l1 = query_index e fuel qb index_id l2) ∧
    (∀ fuel level : Nat,
        query_index cyc_coordinator fuel cyc_qb (some "A") level = .error .outOfFuel) ∧
    (∀ fuel : Nat, query cyc_coordinator fuel cyc_qb = .error .outOfFuel) := by
  refine ⟨fun e => query_index_level_irrelevant e,
    fun fuel level => cyc_diverges_at fuel level, fun fuel => ?_⟩
  cases fuel with
  | zero => rfl
  | succ f => exact cyc_diverges_at (f + 1) 0

/-- `fetch_one_st` neither consumes nor produces state changes when its
recursive call does not. -/
theorem fetch_one_st_frame
    (recurse_st : String → ComposableGraphQueryEngine →
      Except QueryError Response × ComposableGraphQueryEngine)
    (recurseAt : ComposableGraphQueryEngine → String → Except QueryError Response)
    (h : ∀ i s, recurse_st i s = (recurseAt s i, s))
    (n : NodeWithScore) (s : ComposableGraphQueryEngine) :
    fetch_one_st recurse_st n s = (fetch_one (recurseAt s) n, s) := by
  cases hn : n.node with
  | textNode t => simp [fetch_one_st, fetch_one, hn]
  | indexNode t i =>
    simp only [fetch_one_st, fetch_one, hn, h i s]
    cases recurseAt s i <;> rfl

/-- The state-threaded loop leaves the state fixed and agrees with the
pure loop at that state. -/
theorem fetch_loop_st_frame
    (fetch_st : NodeWithScore → ComposableGraphQueryEngine →
      Except QueryError (NodeWithScore × List NodeWithScore) × ComposableGraphQueryEngine)
    (fetchAt : ComposableGraphQueryEngine → NodeWithScore →
      Except QueryError (NodeWithScore × List NodeWithScore))
    (h : ∀ n s, fetch_st n s = (fetchAt s n, s)) :
    ∀ (ns : List NodeWithScore) (st : ComposableGraphQueryEngine),
      fetch_loop_st fetch_st ns st = (fetch_loop (fetchAt st) ns, st) := by
  intro ns
  induction ns with
  | nil => intro st; rfl
  | cons n ns ih =>
    intro st
    simp only [fetch_loop_st, fetch_loop, h n st]
    cases fetchAt st n with
    | error err => rfl
    | ok p =>
      obtain ⟨n', srcs⟩ := p
      simp only [ih st]
      cases fetch_loop (fetchAt st) ns with
      | error err => rfl
      | ok q => rfl

/-- The state-threaded `_query_index` returns its input state unchanged
and computes exactly the pure result. -/
theorem query_index_st_frame :
    ∀ (fuel : Nat) (qb : QueryBundle) (index_id : Option String) (level : Nat)
      (st : ComposableGraphQueryEngine),
      query_index_st fuel qb index_id level st =
        (query_index st fuel qb index_id level, st) := by
  intro fuel
  induction fuel with
  | zero => intro qb index_id level st; rfl
  | succ f ih =>
    intro qb index_id level st
    simp only [query_index_st, query_index]
    cases getQueryEngineFor st (orRootId index_id st.graph.root_id) with
    | error err => rfl
    | ok qe =>
      cases hr : st.recursive with
      | false => simp
      | true =>
        have hloop := fetch_loop_st_frame
          (fetch_one_st (fun i stI => query_index_st f qb (some i) (level + 1) stI))
          (fun s => fetch_one (fun i => query_index s f qb (some i) (level + 1)))
          (fun n s => fetch_one_st_frame _ _
            (fun i s' => ih qb (some i) (level + 1) s') n s)
          (qe.retrieve qb) st
        simp only [hr, if_true, hloop]
        cases fetch_loop (fetch_one fun i => query_index st f qb (some i) (level + 1))
            (qe.retrieve qb) with
        | error err => rfl
        | ok p =>
          obtain ⟨a, b⟩ := p
          rfl

/-- **C9**: no query invocation mutates the coordinator: under the
state-threaded translation, every query and every recursive resolve call
returns the coordinator object — graph, custom registry, recursion flag
and similarity top-k — exactly as it received it, and its result is the
pure function of its arguments. -/
theorem coordinator_state_frame (e : ComposableGraphQueryEngine) (fuel : Nat)
    (qb : QueryBundle) :
    query_st e fuel qb = (query e fuel qb, e) ∧
    ∀ (index_id : Option String) (level : Nat),
      query_index_st fuel qb index_id level e =
        (query_index e fuel qb index_id level, e) :=
  ⟨query_index_st_frame fuel qb none 0 e,
   fun index_id level => query_index_st_frame fuel qb index_id level e⟩

/-- **C10**: `index_id = index_id or root_id` treats the empty string
like an absent identifier — resolving with `""` queries the root index,
not the identifier `""`. -/
theorem query_index_empty_id (e : ComposableGraphQueryEngine) (fuel : Nat)
    (qb : QueryBundle) (level : Nat) :
    query_index e fuel qb (some "") level = query_index e fuel qb none level := by
  cases fuel with
  | zero => rfl
  | succ f => rfl

end GraphQE
